import Mathlib

/-!
# Verification of the vehicle-insurance training pipeline

A shallow embedding of the repository's Python sources:

* `src/entity/artifact_entity.py` — the immutable artifact records,
* `src/entity/config_entity.py` — the per-stage configuration records built
  from a single module-load timestamp,
* `src/constants/__init__.py` — the configuration constants,
* `src/data_access/proj1_data.py` — the MongoDB snapshot cleaning,
* `src/components/data_ingestion.py` — feature-store export and the
  train/test split (backed by scikit-learn's `train_test_split`),
* `src/pipline/training_pipeline.py` — the `TrainPipeline` orchestrator.

Python floats that hold the configured ratios and scores are modelled by
rationals (the concrete constants 0.25 and 0.02 are exactly representable
in binary floating point, so order comparisons agree).  Exceptions are
modelled by an explicit error type threaded through `Except`; logging and
file-system writes are effect-free in the embedding, so a "persisted"
data frame is simply the value that the code hands to `to_csv`.
-/

attribute [local semireducible] Rat.inv Rat.mul Rat.add Rat.sub

deriving instance DecidableEq for Except

namespace VehicleInsurance

/-- A Python exception value.  `MyException e sys` (from `src/exception`)
always stores the causing exception, which we model by the `myException`
wrapper around the cause; any other exception is a `raw` message. -/
inductive PyError where
  | raw : String → PyError
  | myException : PyError → PyError
deriving DecidableEq

/-- Does the error `f` carry `e` in its chain of causes?  `MyException`
stores the original exception it wraps, so unwrapping the `myException`
constructors recovers every cause. -/
def PyError.carries : PyError → PyError → Bool
  | .raw s, e => PyError.raw s == e
  | .myException g, e => (PyError.myException g == e) || g.carries e

/-! ## Constants (`src/constants/__init__.py`) -/

def PIPELINE_NAME : String := ""
def ARTIFACT_DIR : String := "artifact"
def MODEL_FILE_NAME : String := "model.pkl"
def FILE_NAME : String := "data.csv"
def TRAIN_FILE_NAME : String := "train.csv"
def TEST_FILE_NAME : String := "test.csv"
def DATA_INGESTION_COLLECTION_NAME : String := "Proj1-Data"
def DATA_INGESTION_DIR_NAME : String := "data_ingestion"
def DATA_INGESTION_FEATURE_STORE_DIR : String := "feature_store"
def DATA_INGESTION_INGESTED_DIR : String := "ingested"

/-- The constant `DATA_INGESTION_TRAIN_TEST_SPLIT_RATIO: float = 0.25`. -/
def DATA_INGESTION_TRAIN_TEST_SPLIT_RATIO : ℚ := 1/4

def DATA_VALIDATION_DIR_NAME : String := "data_validation"
def DATA_TRANSFORMATION_DIR_NAME : String := "data_transformation"
def MODEL_TRAINER_DIR_NAME : String := "model_trainer"
def MODEL_TRAINER_TRAINED_MODEL_DIR : String := "trained_model"

/-- The constant `MODEL_EVALUATION_CHANGED_THRESHOLD_SCORE: float = 0.02`. -/
def MODEL_EVALUATION_CHANGED_THRESHOLD_SCORE : ℚ := 1/50

def MODEL_BUCKET_NAME : String := "my-model-mlopsproj"

/-! ## Artifacts (`src/entity/artifact_entity.py`) -/

structure DataIngestionArtifact where
  trained_file_path : String
  test_file_path : String
deriving DecidableEq

structure DataValidationArtifact where
  validation_status : Bool
  message : String
  validation_report_file_path : String
deriving DecidableEq

structure DataTransformationArtifact where
  transformed_object_file_path : String
  transformed_train_file_path : String
  transformed_test_file_path : String
deriving DecidableEq

structure ClassificationMetricArtifact where
  f1_score : ℚ
  precision_score : ℚ
  recall_score : ℚ
deriving DecidableEq

structure ModelTrainerArtifact where
  trained_model_file_path : String
  metric_artifact : ClassificationMetricArtifact
deriving DecidableEq

structure ModelEvaluationArtifact where
  is_model_accepted : Bool
  changed_accuracy : ℚ
  s3_model_path : String
  trained_model_path : String
deriving DecidableEq

structure ModelPusherArtifact where
  bucket_name : String
  s3_model_path : String
deriving DecidableEq

/-! ## Configuration (`src/entity/config_entity.py`)

`config_entity.py` computes `TIMESTAMP` once at module load and builds every
default configuration from the single module-level `training_pipeline_config`.
The embedding makes the timestamp an explicit parameter: one module load
corresponds to one choice of `ts`, and every `mk…Config` applied to the same
`TrainingPipelineConfig` value models the dataclass defaults of that load. -/

/-- Python's `os.path.join` for the nonempty, relative path components used by
`config_entity.py`. -/
def osPathJoin (a b : String) : String := a ++ "/" ++ b

structure TrainingPipelineConfig where
  pipeline_name : String
  artifact_dir : String
  timestamp : String
deriving DecidableEq

def mkTrainingPipelineConfig (TIMESTAMP : String) : TrainingPipelineConfig :=
  { pipeline_name := PIPELINE_NAME
    artifact_dir := osPathJoin ARTIFACT_DIR TIMESTAMP
    timestamp := TIMESTAMP }

structure DataIngestionConfig where
  data_ingestion_dir : String
  feature_store_file_path : String
  training_file_path : String
  testing_file_path : String
  train_test_split_ratio : ℚ
  collection_name : String
deriving DecidableEq

def mkDataIngestionConfig (tpc : TrainingPipelineConfig) : DataIngestionConfig :=
  let dir := osPathJoin tpc.artifact_dir DATA_INGESTION_DIR_NAME
  { data_ingestion_dir := dir
    feature_store_file_path :=
      osPathJoin (osPathJoin dir DATA_INGESTION_FEATURE_STORE_DIR) FILE_NAME
    training_file_path :=
      osPathJoin (osPathJoin dir DATA_INGESTION_INGESTED_DIR) TRAIN_FILE_NAME
    testing_file_path :=
      osPathJoin (osPathJoin dir DATA_INGESTION_INGESTED_DIR) TEST_FILE_NAME
    train_test_split_ratio := DATA_INGESTION_TRAIN_TEST_SPLIT_RATIO
    collection_name := DATA_INGESTION_COLLECTION_NAME }

structure DataValidationConfig where
  data_validation_dir : String
  validation_report_file_path : String
deriving DecidableEq

def mkDataValidationConfig (tpc : TrainingPipelineConfig) : DataValidationConfig :=
  let dir := osPathJoin tpc.artifact_dir DATA_VALIDATION_DIR_NAME
  { data_validation_dir := dir
    validation_report_file_path := osPathJoin dir "report.yaml" }

structure DataTransformationConfig where
  data_transformation_dir : String
  transformed_train_file_path : String
  transformed_test_file_path : String
  transformed_object_file_path : String
deriving DecidableEq

def mkDataTransformationConfig (tpc : TrainingPipelineConfig) : DataTransformationConfig :=
  let dir := osPathJoin tpc.artifact_dir DATA_TRANSFORMATION_DIR_NAME
  { data_transformation_dir := dir
    transformed_train_file_path := osPathJoin (osPathJoin dir "transformed") "train.npy"
    transformed_test_file_path := osPathJoin (osPathJoin dir "transformed") "test.npy"
    transformed_object_file_path :=
      osPathJoin (osPathJoin dir "transformed_object") "preprocessing.pkl" }

structure ModelTrainerConfig where
  model_trainer_dir : String
  trained_model_file_path : String
  expected_accuracy : ℚ
deriving DecidableEq

def mkModelTrainerConfig (tpc : TrainingPipelineConfig) : ModelTrainerConfig :=
  let dir := osPathJoin tpc.artifact_dir MODEL_TRAINER_DIR_NAME
  { model_trainer_dir := dir
    trained_model_file_path :=
      osPathJoin (osPathJoin dir MODEL_TRAINER_TRAINED_MODEL_DIR) MODEL_FILE_NAME
    expected_accuracy := 3/5 }

structure ModelEvaluationConfig where
  changed_threshold_score : ℚ
  bucket_name : String
  s3_model_key_path : String
deriving DecidableEq

def mkModelEvaluationConfig : ModelEvaluationConfig :=
  { changed_threshold_score := MODEL_EVALUATION_CHANGED_THRESHOLD_SCORE
    bucket_name := MODEL_BUCKET_NAME
    s3_model_key_path := MODEL_FILE_NAME }

/-! ## Data frames and the MongoDB export (`src/data_access/proj1_data.py`) -/

/-- One cell of a tabular snapshot: a string, a number, or pandas' missing
value marker `np.nan`. -/
inductive Cell where
  | str : String → Cell
  | num : ℚ → Cell
  | nan : Cell
deriving DecidableEq

/-- A pandas `DataFrame`: named columns and rows of cells (each row aligned
positionally with `columns`). -/
structure DataFrame where
  columns : List String
  rows : List (List Cell)
deriving DecidableEq

/-- Pandas `df.drop` of the column `name`: remove the column label and the matching
position of every row. -/
def dropColumn (df : DataFrame) (name : String) : DataFrame :=
  { columns := df.columns.filter (fun c => c != name)
    rows := df.rows.map (fun row =>
      ((df.columns.zip row).filter (fun p => p.1 != name)).map (fun p => p.2)) }

/-- Pandas `df.replace` sending the string `"na"` to `np.nan`, in place: every cell
holding the literal string `"na"` becomes the missing-value marker. -/
def replaceNaWithNan (df : DataFrame) : DataFrame :=
  { df with rows := df.rows.map (List.map (fun c =>
      if c = Cell.str "na" then Cell.nan else c)) }

/-- The method `Proj1Data.export_collection_as_dataframe`, applied to the snapshot `df`
fetched by `collection.find()` (MongoDB documents, so `df` always includes
the driver-generated `_id` column).  The code drops a column only when it is
literally named `"id"`, then normalizes `"na"` cells. -/
def export_collection_as_dataframe (df : DataFrame) : DataFrame :=
  let df1 := if df.columns.contains "id" then dropColumn df "id" else df
  replaceNaWithNan df1

/-- The method `DataIngestion.export_data_into_feature_store`: fetch the collection as a
data frame, write it to the feature-store CSV, and return it.  The persisted
snapshot is exactly the returned frame. -/
def export_data_into_feature_store (source : DataFrame) : DataFrame :=
  export_collection_as_dataframe source

/-! ## scikit-learn's `train_test_split`

`DataIngestion.split_data_as_train_test` calls
`train_test_split(dataframe, test_size=ratio)` with a float ratio and no
`train_size`/`random_state`.  scikit-learn validates via
`_validate_shuffle_split`: a float `test_size` outside the open interval
(0, 1) raises `ValueError`; otherwise `n_test = ceil(test_size * n)` and
`n_train = n - n_test`, and `n_train == 0` raises `ValueError`.  The rows
are then shuffled by a seed-determined permutation; the first `n_test`
shuffled rows form the test set and the rest the train set.  The shuffle is
abstracted as a function `perm` on the row list. -/

def validateShuffleSplit (n : ℕ) (test_size : ℚ) : Except String (ℕ × ℕ) :=
  if test_size ≤ 0 ∨ 1 ≤ test_size then
    .error "test_size should be a float in the (0, 1) range"
  else
    let n_test : ℤ := Int.ceil (test_size * (n : ℚ))
    let n_train : ℤ := (n : ℤ) - n_test
    if (n : ℤ) < n_train + n_test then
      .error "train and test sizes overlap"
    else if n_train = 0 then
      .error "the resulting train set will be empty"
    else
      .ok (n_train.toNat, n_test.toNat)

def train_test_split {α : Type} (perm : List α → List α) (rows : List α)
    (test_size : ℚ) : Except String (List α × List α) :=
  match validateShuffleSplit rows.length test_size with
  | .error m => .error m
  | .ok (n_train, n_test) =>
      let shuffled := perm rows
      .ok ((shuffled.drop n_test).take n_train, shuffled.take n_test)

/-- The train/test row counts of a split outcome. -/
def splitCounts {α : Type} : Except String (List α × List α) → Except String (ℕ × ℕ)
  | .error m => .error m
  | .ok (tr, te) => .ok (tr.length, te.length)

/-! ## Data ingestion (`src/components/data_ingestion.py`) -/

/-- The method `DataIngestion.split_data_as_train_test`: split the frame at the
configured ratio and persist both parts; a `ValueError` from the library is
wrapped as `MyException(e, sys)`. -/
def split_data_as_train_test (perm : List (List Cell) → List (List Cell))
    (cfg : DataIngestionConfig) (df : DataFrame) :
    Except PyError (DataFrame × DataFrame) :=
  match train_test_split perm df.rows cfg.train_test_split_ratio with
  | .error m => .error (.myException (.raw m))
  | .ok (tr, te) => .ok (⟨df.columns, tr⟩, ⟨df.columns, te⟩)

/-- The method `DataIngestion.initiate_data_ingestion`: export the snapshot into the
feature store, split it, and return the artifact holding the configured
train/test paths; any failure is wrapped once more into `MyException`. -/
def initiate_data_ingestion (perm : List (List Cell) → List (List Cell))
    (source : DataFrame) (cfg : DataIngestionConfig) :
    Except PyError DataIngestionArtifact :=
  let dataframe := export_data_into_feature_store source
  match split_data_as_train_test perm cfg dataframe with
  | .error e => .error (.myException e)
  | .ok _ =>
      .ok { trained_file_path := cfg.training_file_path
            test_file_path := cfg.testing_file_path }

/-! ## Model evaluation -/

/-- Modelled from the spec: `src/components/model_evaluation.py` is not part
of the source tree (only its caller `TrainPipeline.start_model_evaluation`
and its config/artifact records are).  Spec §4.5: attempt to load the
currently deployed model from the remote store; if none exists the run
never fails and yields `accepted=True, score_delta=0`; if one exists with
F1 score `old_f1`, compute `delta = new_f1 - old_f1` and accept exactly
when `delta > changed_threshold_score`.  `deployed_f1` is the deployed
model's score, or `none` when no model is deployed. -/
def initiate_model_evaluation (cfg : ModelEvaluationConfig)
    (deployed_f1 : Option ℚ) (new_f1 : ℚ) (trained_model_path : String) :
    Except PyError ModelEvaluationArtifact :=
  match deployed_f1 with
  | none =>
      .ok { is_model_accepted := true
            changed_accuracy := 0
            s3_model_path := cfg.s3_model_key_path
            trained_model_path := trained_model_path }
  | some old_f1 =>
      .ok { is_model_accepted := decide (new_f1 - old_f1 > cfg.changed_threshold_score)
            changed_accuracy := new_f1 - old_f1
            s3_model_path := cfg.s3_model_key_path
            trained_model_path := trained_model_path }

/-- The acceptance flag of an evaluation outcome (`false` on failure). -/
def acceptedOf : Except PyError ModelEvaluationArtifact → Bool
  | .ok a => a.is_model_accepted
  | .error _ => false

/-! ## The orchestrator (`src/pipline/training_pipeline.py`)

`TrainPipeline.run_pipeline` invokes the six `initiate_…` component calls in
a fixed order through the `start_…` wrappers.  The components other than
data ingestion are not part of the source tree, so they are abstracted as
oracle functions from the artifacts they consume to an `Except` outcome —
exactly the shape of the `initiate_…` contracts.  `run_pipeline` also
returns the list of stages it invoked, in order, so that "never invoked" /
"invoked exactly once" are observable. -/

structure Stages where
  ingestion : Except PyError DataIngestionArtifact
  validation : DataIngestionArtifact → Except PyError DataValidationArtifact
  transformation : DataIngestionArtifact → DataValidationArtifact →
    Except PyError DataTransformationArtifact
  trainer : DataTransformationArtifact → Except PyError ModelTrainerArtifact
  evaluation : DataIngestionArtifact → ModelTrainerArtifact →
    Except PyError ModelEvaluationArtifact
  pusher : ModelEvaluationArtifact → Except PyError ModelPusherArtifact

/-- The six stages, in pipeline order. -/
inductive StageName where
  | ingestion | validation | transformation | trainer | evaluation | pusher
deriving DecidableEq, BEq

/-- Each `TrainPipeline.start_…` method runs its component in a `try` block
and re-raises any exception as `MyException(e, sys)`; a returned artifact is
handed back unchanged. -/
def start_stage {α : Type} (r : Except PyError α) : Except PyError α :=
  match r with
  | .error e => .error (.myException e)
  | .ok a => .ok a

/-- The method `TrainPipeline.run_pipeline`: run the stages in order, short-circuit
with a normal return (`.ok ()`) when the evaluation artifact has
`is_model_accepted = False`, and wrap any escaping exception once more as
`MyException(e, sys)`.  The second component records which stages were
invoked, in order. -/
def run_pipeline (s : Stages) : Except PyError Unit × List StageName :=
  match start_stage s.ingestion with
  | .error e => (.error (.myException e), [.ingestion])
  | .ok ia =>
    match start_stage (s.validation ia) with
    | .error e => (.error (.myException e), [.ingestion, .validation])
    | .ok va =>
      match start_stage (s.transformation ia va) with
      | .error e => (.error (.myException e), [.ingestion, .validation, .transformation])
      | .ok da =>
        match start_stage (s.trainer da) with
        | .error e =>
            (.error (.myException e), [.ingestion, .validation, .transformation, .trainer])
        | .ok ta =>
          match start_stage (s.evaluation ia ta) with
          | .error e =>
              (.error (.myException e),
                [.ingestion, .validation, .transformation, .trainer, .evaluation])
          | .ok ea =>
            if ea.is_model_accepted = false then
              (.ok (), [.ingestion, .validation, .transformation, .trainer, .evaluation])
            else
              match start_stage (s.pusher ea) with
              | .error e =>
                  (.error (.myException e),
                    [.ingestion, .validation, .transformation, .trainer, .evaluation, .pusher])
              | .ok _ =>
                  (.ok (),
                    [.ingestion, .validation, .transformation, .trainer, .evaluation, .pusher])

/-! ## Theorems -/

/-- A collection snapshot as `collection.find()` returns it: MongoDB always
adds the driver-generated `_id` field to every stored document, so the
fetched frame carries an `_id` identifier column. -/
def mongoSnapshot : DataFrame :=
  { columns := ["_id", "Gender", "Age", "Response"]
    rows := [[Cell.str "66f2a", Cell.str "Male", Cell.num 44, Cell.num 1],
             [Cell.str "66f2b", Cell.str "na", Cell.num 21, Cell.num 0]] }

/-- Claim C4: the claim says the persisted feature-store snapshot contains
no identifier column.  The code drops a column only when it is literally
named `"id"`, so the `_id` identifier column of a fetched MongoDB snapshot
survives into the persisted frame — contradicting both the claim and the
function's own docstring ("a cleaned DataFrame with '_id' column removed").
The sentinel-`"na"` half of the claim does hold: every `"na"` cell is
replaced by the missing-value marker. -/
theorem export_keeps_mongo_id_column :
    "_id" ∈ (export_data_into_feature_store mongoSnapshot).columns ∧
    (export_data_into_feature_store mongoSnapshot).rows =
      [[Cell.str "66f2a", Cell.str "Male", Cell.num 44, Cell.num 1],
       [Cell.str "66f2b", Cell.nan, Cell.num 21, Cell.num 0]] := by
  decide

/-- Claim C10: every default-constructed stage configuration of a single
module load (one `TIMESTAMP` value `ts`) places its directory directly
under the one artifact root `artifact/<ts>`, and all four stage configs
agree on that root; the ingestion config's three output file paths sit
under its stage directory in turn. -/
theorem configs_share_timestamped_artifact_root (ts : String) :
    ∃ root : String,
      root = osPathJoin ARTIFACT_DIR ts ∧
      (mkTrainingPipelineConfig ts).artifact_dir = root ∧
      (mkDataIngestionConfig (mkTrainingPipelineConfig ts)).data_ingestion_dir =
        osPathJoin root DATA_INGESTION_DIR_NAME ∧
      (mkDataValidationConfig (mkTrainingPipelineConfig ts)).data_validation_dir =
        osPathJoin root DATA_VALIDATION_DIR_NAME ∧
      (mkDataTransformationConfig (mkTrainingPipelineConfig ts)).data_transformation_dir =
        osPathJoin root DATA_TRANSFORMATION_DIR_NAME ∧
      (mkModelTrainerConfig (mkTrainingPipelineConfig ts)).model_trainer_dir =
        osPathJoin root MODEL_TRAINER_DIR_NAME ∧
      (mkDataIngestionConfig (mkTrainingPipelineConfig ts)).feature_store_file_path =
        osPathJoin (osPathJoin (osPathJoin root DATA_INGESTION_DIR_NAME)
          DATA_INGESTION_FEATURE_STORE_DIR) FILE_NAME ∧
      (mkDataIngestionConfig (mkTrainingPipelineConfig ts)).training_file_path =
        osPathJoin (osPathJoin (osPathJoin root DATA_INGESTION_DIR_NAME)
          DATA_INGESTION_INGESTED_DIR) TRAIN_FILE_NAME ∧
      (mkDataIngestionConfig (mkTrainingPipelineConfig ts)).testing_file_path =
        osPathJoin (osPathJoin (osPathJoin root DATA_INGESTION_DIR_NAME)
          DATA_INGESTION_INGESTED_DIR) TEST_FILE_NAME :=
  ⟨osPathJoin ARTIFACT_DIR ts, rfl, rfl, rfl, rfl, rfl, rfl, rfl, rfl, rfl⟩

/-- Claim C7: with no previously deployed model the evaluation stage does
not fail: it returns (`.ok`, never `.error`) an artifact with
`is_model_accepted = true` and score delta `0`. -/
theorem evaluation_auto_accepts_without_previous_model
    (cfg : ModelEvaluationConfig) (new_f1 : ℚ) (path : String) :
    initiate_model_evaluation cfg none new_f1 path =
      .ok { is_model_accepted := true
            changed_accuracy := 0
            s3_model_path := cfg.s3_model_key_path
            trained_model_path := path } :=
  rfl

/-- Claim C3: whenever the configured train/test split ratio lies outside
the open interval (0, 1), `initiate_data_ingestion` raises (the library
split rejects the ratio and the `ValueError` is wrapped into `MyException`)
instead of returning an ingestion artifact. -/
theorem initiate_data_ingestion_raises_on_invalid_ratio
    (perm : List (List Cell) → List (List Cell)) (source : DataFrame)
    (cfg : DataIngestionConfig)
    (h : cfg.train_test_split_ratio ≤ 0 ∨ 1 ≤ cfg.train_test_split_ratio) :
    ∃ e, initiate_data_ingestion perm source cfg = .error e := by
  refine ⟨.myException (.myException
    (.raw "test_size should be a float in the (0, 1) range")), ?_⟩
  simp only [initiate_data_ingestion, split_data_as_train_test, train_test_split,
    validateShuffleSplit, if_pos h]

/-- Witness for C3: the default ingestion config with its ratio overridden
to 1.5 makes ingestion raise on a concrete two-row snapshot. -/
theorem initiate_data_ingestion_raises_on_invalid_ratio_witness :
    ∃ e, initiate_data_ingestion id mongoSnapshot
      { mkDataIngestionConfig (mkTrainingPipelineConfig "05_10_2025_10_00_00") with
          train_test_split_ratio := 3/2 } = .error e :=
  initiate_data_ingestion_raises_on_invalid_ratio id mongoSnapshot _ (by decide)

/-- Counterexample to Claim C5 as stated: a non-empty (one-row) dataset
with the valid configured ratio 0.25 does not yield a 1-row partition —
the library split raises because the resulting train set would be empty,
so no train/test sets are produced at all. -/
theorem split_single_row_raises_counterexample :
    train_test_split id [[Cell.num 0]] DATA_INGESTION_TRAIN_TEST_SPLIT_RATIO =
      .error "the resulting train set will be empty" := by
  decide

/-- Claim C5 (amended): whenever the split succeeds on a dataset of
`rows.length` rows with ratio `r` (under any length-preserving shuffle),
the train and test row counts sum to exactly `rows.length`, and the test
set receives `⌈r · n⌉` rows — fraction `r` within rounding.  (As literally
stated the claim fails: on datasets so small that the train side would be
empty, e.g. one row at ratio 0.25, the split raises instead.) -/
theorem train_test_split_partitions_rows {α : Type} (perm : List α → List α)
    (rows : List α) (r : ℚ) (tr te : List α)
    (hperm : (perm rows).length = rows.length)
    (hok : train_test_split perm rows r = .ok (tr, te)) :
    tr.length + te.length = rows.length ∧
      te.length = (Int.ceil (r * (rows.length : ℚ))).toNat := by
  unfold train_test_split at hok
  cases hv : validateShuffleSplit rows.length r with
  | error m => rw [hv] at hok; cases hok
  | ok p =>
    obtain ⟨ntr, nte⟩ := p
    rw [hv] at hok
    simp only [validateShuffleSplit] at hv
    by_cases h1 : r ≤ 0 ∨ 1 ≤ r
    · rw [if_pos h1] at hv; cases hv
    · rw [if_neg h1] at hv
      push_neg at h1
      obtain ⟨hr0, hr1⟩ := h1
      rw [Int.sub_add_cancel, if_neg (lt_irrefl _)] at hv
      by_cases h3 : (rows.length : ℤ) - Int.ceil (r * (rows.length : ℚ)) = 0
      · rw [if_pos h3] at hv; cases hv
      · rw [if_neg h3] at hv
        injection hv with hv'
        injection hv' with hntr hnte
        subst hntr hnte
        have hcnn : (0 : ℤ) ≤ Int.ceil (r * (rows.length : ℚ)) :=
          Int.ceil_nonneg (mul_nonneg hr0.le (Nat.cast_nonneg _))
        have hcle : Int.ceil (r * (rows.length : ℚ)) ≤ (rows.length : ℤ) := by
          rw [Int.ceil_le]
          push_cast
          calc r * (rows.length : ℚ) ≤ 1 * (rows.length : ℚ) :=
                mul_le_mul_of_nonneg_right hr1.le (Nat.cast_nonneg _)
            _ = (rows.length : ℚ) := one_mul _
        obtain ⟨tr_eq, te_eq⟩ :
            ((perm rows).drop (Int.ceil (r * (rows.length : ℚ))).toNat).take
                ((rows.length : ℤ) - Int.ceil (r * (rows.length : ℚ))).toNat = tr ∧
              (perm rows).take (Int.ceil (r * (rows.length : ℚ))).toNat = te := by
          injection hok with hok'
          injection hok' with h₁ h₂
          exact ⟨h₁, h₂⟩
        subst tr_eq te_eq
        simp only [List.length_take, List.length_drop, hperm]
        omega

/-- Witness for C5: a 100-row dataset at the configured ratio 0.25 splits
into 75 train rows and 25 test rows. -/
theorem train_test_split_partitions_rows_witness :
    (((List.range 100).drop 25).take 75).length + ((List.range 100).take 25).length =
        (List.range 100).length ∧
      ((List.range 100).take 25).length =
        (Int.ceil ( DATA_INGESTION_TRAIN_TEST_SPLIT_RATIO * ((List.range 100).length : ℚ))).toNat :=
  train_test_split_partitions_rows id (List.range 100)
    DATA_INGESTION_TRAIN_TEST_SPLIT_RATIO _ _ rfl (by decide)

/-- Claim C9: the train/test row counts produced by the split do not depend
on the shuffle: any two (length-preserving) seed-determined permutations of
the same dataset at the same ratio give the same row-count outcome, so
re-running ingestion on an unchanged source with the same ratio and a
pinned seed reproduces identical row counts. -/
theorem split_counts_seed_invariant {α : Type} (rows : List α) (r : ℚ)
    (p1 p2 : List α → List α)
    (h1 : (p1 rows).length = rows.length) (h2 : (p2 rows).length = rows.length) :
    splitCounts (train_test_split p1 rows r) = splitCounts (train_test_split p2 rows r) := by
  unfold train_test_split
  cases hv : validateShuffleSplit rows.length r with
  | error m => rfl
  | ok p =>
    obtain ⟨ntr, nte⟩ := p
    simp only [splitCounts, List.length_take, List.length_drop, h1, h2]

/-- Witness for C9: two different shuffles of a concrete four-row dataset
at ratio 0.5 give identical row counts. -/
theorem split_counts_seed_invariant_witness :
    splitCounts (train_test_split id [1, 2, 3, 4] ((1 : ℚ)/2)) =
      splitCounts (train_test_split List.reverse [1, 2, 3, 4] ((1 : ℚ)/2)) :=
  split_counts_seed_invariant [1, 2, 3, 4] ((1 : ℚ)/2) id List.reverse rfl rfl

/-- Claim C6: with a previously deployed model of score `old_f1`, the
evaluation accepts the new model exactly when `new_f1 - old_f1` strictly
exceeds the configured `changed_threshold_score`; in particular a new score
of `old_f1 + threshold - ε` is rejected and `old_f1 + threshold + ε` is
accepted, for every positive `ε`. -/
theorem evaluation_accepts_iff_improvement_exceeds_threshold
    (cfg : ModelEvaluationConfig) (old_f1 : ℚ) (path : String) :
    (∀ new_f1 a, initiate_model_evaluation cfg (some old_f1) new_f1 path = .ok a →
        (a.is_model_accepted = true ↔ new_f1 - old_f1 > cfg.changed_threshold_score)) ∧
    (∀ ε : ℚ, 0 < ε →
        acceptedOf (initiate_model_evaluation cfg (some old_f1)
          (old_f1 + cfg.changed_threshold_score - ε) path) = false ∧
        acceptedOf (initiate_model_evaluation cfg (some old_f1)
          (old_f1 + cfg.changed_threshold_score + ε) path) = true) := by
  constructor
  · intro new_f1 a h
    simp only [initiate_model_evaluation] at h
    injection h with h'
    subst h'
    simp [decide_eq_true_iff]
  · intro ε hε
    constructor
    · simp only [initiate_model_evaluation, acceptedOf, decide_eq_false_iff_not]
      intro hcon
      linarith
    · simp only [initiate_model_evaluation, acceptedOf, decide_eq_true_iff]
      linarith

/-- Witness for C6: with the configured threshold 0.02, a deployed score of
0.70 and ε = 0.01, the new model is rejected at 0.71 and accepted at 0.73. -/
theorem evaluation_threshold_witness :
    acceptedOf (initiate_model_evaluation mkModelEvaluationConfig (some ((7 : ℚ)/10))
        ((7 : ℚ)/10 + mkModelEvaluationConfig.changed_threshold_score - 1/100) "model.pkl") =
          false ∧
      acceptedOf (initiate_model_evaluation mkModelEvaluationConfig (some ((7 : ℚ)/10))
        ((7 : ℚ)/10 + mkModelEvaluationConfig.changed_threshold_score + 1/100) "model.pkl") =
          true :=
  (evaluation_accepts_iff_improvement_exceeds_threshold mkModelEvaluationConfig
    ((7 : ℚ)/10) "model.pkl").2 ((1 : ℚ)/100) (by decide)

/-- Claim C8: the ingestion stage either raises or returns an artifact with
both fields populated from the configured paths (a Lean structure value is
total, matching the dataclass whose constructor requires every field), and
the orchestrator's `start_…` wrapper hands every successfully produced
artifact onward unchanged — no field is mutated between creation and
consumption. -/
theorem stage_artifacts_fully_populated_and_unmutated :
    (∀ (perm : List (List Cell) → List (List Cell)) (source : DataFrame)
        (cfg : DataIngestionConfig) a,
        initiate_data_ingestion perm source cfg = .ok a →
          a.trained_file_path = cfg.training_file_path ∧
          a.test_file_path = cfg.testing_file_path) ∧
    (∀ (α : Type) (r : Except PyError α) (a : α), start_stage r = .ok a → r = .ok a) := by
  constructor
  · intro perm source cfg a h
    simp only [initiate_data_ingestion] at h
    cases hs : split_data_as_train_test perm cfg (export_data_into_feature_store source) with
    | error e => rw [hs] at h; cases h
    | ok p =>
      rw [hs] at h
      injection h with h'
      subst h'
      exact ⟨rfl, rfl⟩
  · intro α r a h
    cases r with
    | error e => cases h
    | ok b => exact h

/-- Witness for C8: a concrete four-row snapshot at the default config
yields an artifact holding exactly the configured train/test paths. -/
theorem stage_artifacts_fully_populated_witness :
    (DataIngestionArtifact.mk
        (mkDataIngestionConfig (mkTrainingPipelineConfig "05_10_2025_11_00_00")).training_file_path
        (mkDataIngestionConfig (mkTrainingPipelineConfig "05_10_2025_11_00_00")).testing_file_path).trained_file_path =
      (mkDataIngestionConfig (mkTrainingPipelineConfig "05_10_2025_11_00_00")).training_file_path ∧
    (DataIngestionArtifact.mk
        (mkDataIngestionConfig (mkTrainingPipelineConfig "05_10_2025_11_00_00")).training_file_path
        (mkDataIngestionConfig (mkTrainingPipelineConfig "05_10_2025_11_00_00")).testing_file_path).test_file_path =
      (mkDataIngestionConfig (mkTrainingPipelineConfig "05_10_2025_11_00_00")).testing_file_path :=
  stage_artifacts_fully_populated_and_unmutated.1 id
    ⟨["Gender", "Age", "Response"],
      [[Cell.str "Male", Cell.num 44, Cell.num 1],
       [Cell.str "Female", Cell.num 21, Cell.num 0],
       [Cell.str "Male", Cell.num 33, Cell.num 0],
       [Cell.str "Female", Cell.num 52, Cell.num 1]]⟩
    (mkDataIngestionConfig (mkTrainingPipelineConfig "05_10_2025_11_00_00")) _ (by decide)

theorem PyError.carries_self (e : PyError) : e.carries e = true := by
  cases e <;> simp [PyError.carries]

theorem PyError.carries_wrap (f e : PyError) (h : f.carries e = true) :
    (PyError.myException f).carries e = true := by
  simp [PyError.carries, h]

/-- Claim C1: in every run whose evaluation stage returns an artifact with
`is_model_accepted = false`, `run_pipeline` returns normally (`.ok ()`)
without ever invoking the pusher; in every run that reaches evaluation with
`is_model_accepted = true`, the pusher is invoked exactly once.  (These two
outcomes of the acceptance test are the only branch in the control flow:
every other transition of `run_pipeline` is unconditional.) -/
theorem run_pipeline_branches_only_on_acceptance (s : Stages)
    (ia : DataIngestionArtifact) (va : DataValidationArtifact)
    (da : DataTransformationArtifact) (ta : ModelTrainerArtifact)
    (ea : ModelEvaluationArtifact)
    (hi : s.ingestion = .ok ia) (hv : s.validation ia = .ok va)
    (ht : s.transformation ia va = .ok da) (hm : s.trainer da = .ok ta)
    (he : s.evaluation ia ta = .ok ea) :
    (ea.is_model_accepted = false →
        (run_pipeline s).1 = .ok () ∧ StageName.pusher ∉ (run_pipeline s).2) ∧
    (ea.is_model_accepted = true →
        (run_pipeline s).2.count StageName.pusher = 1) := by
  constructor
  · intro hacc
    simp [run_pipeline, start_stage, hi, hv, ht, hm, he, hacc]
  · intro hacc
    cases hp : s.pusher ea <;>
      simp [run_pipeline, start_stage, hi, hv, ht, hm, he, hacc, hp, List.count] <;>
      decide

/-- A run whose stages all succeed but whose evaluation rejects the model. -/
def stagesRejecting : Stages :=
  { ingestion := .ok ⟨"train.csv", "test.csv"⟩
    validation := fun _ => .ok ⟨true, "ok", "report.yaml"⟩
    transformation := fun _ _ => .ok ⟨"preprocessing.pkl", "train.npy", "test.npy"⟩
    trainer := fun _ => .ok ⟨"model.pkl", ⟨4/5, 3/4, 7/10⟩⟩
    evaluation := fun _ _ => .ok ⟨false, 1/100, "model.pkl", "model.pkl"⟩
    pusher := fun _ => .ok ⟨MODEL_BUCKET_NAME, "model.pkl"⟩ }

/-- Witness for C1: on a concrete rejecting run the pipeline returns
normally and never invokes the pusher. -/
theorem run_pipeline_branches_witness :
    (run_pipeline stagesRejecting).1 = .ok () ∧
      StageName.pusher ∉ (run_pipeline stagesRejecting).2 :=
  (run_pipeline_branches_only_on_acceptance stagesRejecting
    ⟨"train.csv", "test.csv"⟩ ⟨true, "ok", "report.yaml"⟩
    ⟨"preprocessing.pkl", "train.npy", "test.npy"⟩
    ⟨"model.pkl", ⟨4/5, 3/4, 7/10⟩⟩ ⟨false, 1/100, "model.pkl", "model.pkl"⟩
    rfl rfl rfl rfl rfl).1 rfl

/-- Claim C2: whichever stage raises, `run_pipeline` re-raises the failure
wrapped in the uniform `MyException` type carrying the original cause
(`start_…` wraps once, `run_pipeline`'s own handler wraps again), the
result is an error (never a recovery), the invocation list stops at the
failing stage — no later stage is invoked and no stage is retried — and
the doubly wrapped error indeed carries the original cause in its chain. -/
theorem run_pipeline_failure_wraps_and_stops (s : Stages) :
    (∀ e, s.ingestion = .error e →
        run_pipeline s = (.error (.myException (.myException e)), [.ingestion])) ∧
    (∀ ia e, s.ingestion = .ok ia → s.validation ia = .error e →
        run_pipeline s =
          (.error (.myException (.myException e)), [.ingestion, .validation])) ∧
    (∀ ia va e, s.ingestion = .ok ia → s.validation ia = .ok va →
        s.transformation ia va = .error e →
        run_pipeline s =
          (.error (.myException (.myException e)),
            [.ingestion, .validation, .transformation])) ∧
    (∀ ia va da e, s.ingestion = .ok ia → s.validation ia = .ok va →
        s.transformation ia va = .ok da → s.trainer da = .error e →
        run_pipeline s =
          (.error (.myException (.myException e)),
            [.ingestion, .validation, .transformation, .trainer])) ∧
    (∀ ia va da ta e, s.ingestion = .ok ia → s.validation ia = .ok va →
        s.transformation ia va = .ok da → s.trainer da = .ok ta →
        s.evaluation ia ta = .error e →
        run_pipeline s =
          (.error (.myException (.myException e)),
            [.ingestion, .validation, .transformation, .trainer, .evaluation])) ∧
    (∀ ia va da ta ea e, s.ingestion = .ok ia → s.validation ia = .ok va →
        s.transformation ia va = .ok da → s.trainer da = .ok ta →
        s.evaluation ia ta = .ok ea → ea.is_model_accepted = true →
        s.pusher ea = .error e →
        run_pipeline s =
          (.error (.myException (.myException e)),
            [.ingestion, .validation, .transformation, .trainer, .evaluation, .pusher])) ∧
    (∀ e : PyError, (PyError.myException (PyError.myException e)).carries e = true) := by
  refine ⟨?_, ?_, ?_, ?_, ?_, ?_, ?_⟩
  · intro e h1
    simp [run_pipeline, start_stage, h1]
  · intro ia e h1 h2
    simp [run_pipeline, start_stage, h1, h2]
  · intro ia va e h1 h2 h3
    simp [run_pipeline, start_stage, h1, h2, h3]
  · intro ia va da e h1 h2 h3 h4
    simp [run_pipeline, start_stage, h1, h2, h3, h4]
  · intro ia va da ta e h1 h2 h3 h4 h5
    simp [run_pipeline, start_stage, h1, h2, h3, h4, h5]
  · intro ia va da ta ea e h1 h2 h3 h4 h5 hacc h6
    simp [run_pipeline, start_stage, h1, h2, h3, h4, h5, hacc, h6]
  · intro e
    exact PyError.carries_wrap _ _ (PyError.carries_wrap _ _ (PyError.carries_self e))

/-- A run whose model trainer raises. -/
def stagesTrainerRaises : Stages :=
  { stagesRejecting with
      trainer := fun _ => .error (.myException (.raw "array shapes are incompatible")) }

/-- Witness for C2: on a concrete run whose trainer raises, the pipeline
stops at the trainer with the doubly wrapped error. -/
theorem run_pipeline_failure_witness :
    run_pipeline stagesTrainerRaises =
      (.error (.myException (.myException
          (.myException (.raw "array shapes are incompatible")))),
        [.ingestion, .validation, .transformation, .trainer]) :=
  (run_pipeline_failure_wraps_and_stops stagesTrainerRaises).2.2.2.1
    ⟨"train.csv", "test.csv"⟩ ⟨true, "ok", "report.yaml"⟩
    ⟨"preprocessing.pkl", "train.npy", "test.npy"⟩
    (.myException (.raw "array shapes are incompatible")) rfl rfl rfl rfl

end VehicleInsurance
